import Mathlib

/-!
Shallow embedding of the resolution-and-generation core of the
nginx-gateway-fabric repository, together with proofs checking the
natural-language specification against it.

The sources modelled here:
* `cmd/gateway/main.go` (route precedence: `sortRoutes`, `higherPriority`,
  `lessObjectMeta`);
* `internal/mode/static/nginx/config/policies/generator.go`, which contains
  three historical segments: the v1 policy-generator framework
  (`GenerateResult` with a `KeyVals` map and a `CompositeGenerator` that
  merges maps with `maps.Copy`), the v2 framework (`ServerFile`,
  `LocationFile`, `LocationType`, filter methods and a `CompositeGenerator`
  that concatenates slices), and a v2 client-settings generator whose
  `getMaxSize` compares unit suffixes directly;
* `internal/mode/static/nginx/config/policies/clientsettings/generator.go`,
  the client-settings generator whose `getMaxSize` parses both literals to a
  byte count with `parseSizeToBytes`;
* `unnamed/part_001`, a v1-framework client-settings generator sharing the
  suffix-comparison `getMaxSize`.

Conventions: Go strings are `String`; Go byte slices that only carry rendered
text are `String`; `*T` is `Option T`; a Go function that can panic returns
`Option`; a Go function returning `(T, error)` returns `Except String T`;
nil-able Go slices are `GoSlice α := Option (List α)` (with `none` = nil) in
the one framework where the nil/empty distinction is observable, and plain
lists elsewhere; Go `map[string]V` is `GoMap := Option (List (String × V))`
with `none` = nil map.
-/

/-- Decimal value of a list of digit characters, as consumed left to right
(the accumulator step of integer parsing). -/
def digitsToNat (ds : List Char) : Nat :=
  ds.foldl (fun acc c => 10 * acc + (c.toNat - 48)) 0

/-- Go `strconv.Atoi`: an optional sign followed by at least one digit.
Overflow is not modelled; every call site in the embedded code parses at most
four digits. `none` models a non-nil `error` result. -/
def goAtoi (s : String) : Option Int :=
  match s.data with
  | [] => none
  | c :: cs =>
    if c = '+' then
      if cs ≠ [] ∧ cs.all Char.isDigit then some (Int.ofNat (digitsToNat cs)) else none
    else if c = '-' then
      if cs ≠ [] ∧ cs.all Char.isDigit then some (-(Int.ofNat (digitsToNat cs))) else none
    else if (c :: cs).all Char.isDigit then some (Int.ofNat (digitsToNat (c :: cs))) else none

/-- Go `s[len(s)-1:]` for a nonempty string: the last character as a
one-character string (empty input yields `""`; the embedded callers guard
against empty input before slicing). -/
def lastCharStr (s : String) : String :=
  match s.data.getLast? with
  | some c => String.mk [c]
  | none => ""

/-- Go `s[:len(s)-1]`: the string without its last character. -/
def dropLastStr (s : String) : String :=
  String.mk s.data.dropLast

/-- Go `strings.ToLower` restricted to ASCII, which is all the embedded call
sites can receive. -/
def goToLower (s : String) : String :=
  String.mk (s.data.map Char.toLower)

namespace ClientSettingsRegex

/-!
Embedding of `internal/mode/static/nginx/config/policies/clientsettings/generator.go`
(the variant whose `getMaxSize` parses literals into byte counts).
-/

/-- Submatch extraction for the anchored regular expression
`^(\d{1,4})(k|m|g)?$` used by `parseSizeToBytes`: on a match, returns
(`matches[1]`, `matches[2]`); on no match, `none` (in Go,
`FindStringSubmatch` returning fewer than 3 entries). The unit alternatives
are the literal lowercase characters, exactly as in the source pattern. -/
def sizeSubmatches (s : String) : Option (String × String) :=
  let ds := s.data.takeWhile Char.isDigit
  let rest := s.data.dropWhile Char.isDigit
  if 1 ≤ ds.length ∧ ds.length ≤ 4 then
    match rest with
    | [] => some (String.mk ds, "")
    | [c] => if c = 'k' ∨ c = 'm' ∨ c = 'g' then some (String.mk ds, String.mk [c]) else none
    | _ => none
  else none

/-- Go map `sizeMultipliers`; indexing a Go map with an absent key yields the
zero value `0`. -/
def sizeMultipliers (unit : String) : Int :=
  if unit = "b" then 1
  else if unit = "k" then 1024
  else if unit = "m" then 1024 * 1024
  else if unit = "g" then 1024 * 1024 * 1024
  else 0

/-- Source `parseSizeToBytes`: parses a size literal against
`^(\d{1,4})(k|m|g)?$` and converts it to bytes, defaulting the missing unit
to `"b"`. Errors are the typed `error` results of the Go function. -/
def parseSizeToBytes (s : String) : Except String Int :=
  match sizeSubmatches s with
  | none => .error ("invalid size format, could not find submatches: " ++ s)
  | some (digits, unitMatch) =>
    match goAtoi digits with
    | none => .error ("invalid size format, could not parse int: " ++ s)
    | some value =>
      let unit0 := goToLower unitMatch
      let unit := if unit0 = "" then "b" else unit0
      .ok (value * sizeMultipliers unit)

/-- Source `getMaxSize` (regex variant): treats `""` as the identity, parses
both literals to bytes and keeps the larger; `panic(err)` on a parse failure
is modelled as `none`. -/
def getMaxSize (s1 s2 : String) : Option String :=
  if s1 = "" then some s2
  else if s2 = "" then some s1
  else
    match parseSizeToBytes s1 with
    | .error _ => none
    | .ok s1Bytes =>
      match parseSizeToBytes s2 with
      | .error _ => none
      | .ok s2Bytes => if s1Bytes > s2Bytes then some s1 else some s2

end ClientSettingsRegex

namespace CSLegacy

/-!
Embedding of the suffix-comparison `getMaxSize` that appears verbatim both in
`unnamed/part_001` and in the final segment of
`internal/mode/static/nginx/config/policies/generator.go`.
-/

/-- Source `isDigit`: `strconv.Atoi(char)` succeeds (the callers pass a
one-character string). -/
def isDigit (char : String) : Bool :=
  (goAtoi char).isSome

/-- Source `getMaxSize` (suffix-comparison variant): the second argument is a
`*Size`. The function compares the final characters as units and only parses
the digit prefixes when the units coincide; `panic` (from `strconv.Atoi`
errors, or from slicing an empty `*s2`) is modelled as `none`. -/
def getMaxSize (s1 : String) (s2 : Option String) : Option String :=
  match s2 with
  | none => some s1
  | some s2v =>
    if s1 = "" then some s2v
    else if s2v = "" then none
    else
      let s1Unit := lastCharStr s1
      let s2Unit := lastCharStr s2v
      if isDigit s1Unit ∧ ¬ isDigit s2Unit then some s2v
      else if ¬ isDigit s1Unit ∧ isDigit s2Unit then some s1
      else if s1Unit = s2Unit then
        match goAtoi (dropLastStr s1), goAtoi (dropLastStr s2v) with
        | some s1Int, some s2Int => if s1Int > s2Int then some s1 else some s2v
        | _, _ => none
      else if s1Unit = "k" then some s2v
      else if s1Unit = "m" then if s2Unit = "g" then some s2v else some s1
      else if s1Unit = "g" then some s1
      else some s1

end CSLegacy

example : ClientSettingsRegex.parseSizeToBytes "1024" = .ok 1024 := rfl
example : ClientSettingsRegex.parseSizeToBytes "1k" = .ok 1024 := rfl
example : ClientSettingsRegex.parseSizeToBytes "2g" = .ok 2147483648 := rfl
example : (ClientSettingsRegex.parseSizeToBytes "12345").isOk = false := by decide
example : (ClientSettingsRegex.parseSizeToBytes "1K").isOk = false := by decide
example : ClientSettingsRegex.getMaxSize "1k" "1m" = some "1m" := by decide
example : ClientSettingsRegex.getMaxSize "2g" "1024m" = some "2g" := by decide
example : CSLegacy.getMaxSize "9999" (some "1k") = some "1k" := by decide
example : CSLegacy.getMaxSize "5" (some "7") = some "5" := by decide
example : CSLegacy.getMaxSize "5" (some "5") = none := by decide

/-!
Shared model of the `ngfAPI` (apis/v1alpha1) client-settings policy type.
The API package itself is not under the sources; the shapes below are read
off the generators' field accesses and the templates' conditionals.
-/

/-- Modelled from the spec: the `ClientSettingsPolicySpec.Body` payload, with
`MaxSize *Size` and `Timeout *Duration` (pointers become `Option`). -/
structure ClientBody where
  MaxSize : Option String
  Timeout : Option String
deriving DecidableEq

/-- Modelled from the spec: the nested keep-alive timeout with optional
`Server` and `Header` durations. -/
structure KeepAliveTimeout where
  Server : Option String
  Header : Option String
deriving DecidableEq

/-- Modelled from the spec: the keep-alive block with optional `Requests`,
`Time` and `Timeout` fields. -/
structure KeepAlive where
  Requests : Option Int
  Time : Option String
  Timeout : Option KeepAliveTimeout
deriving DecidableEq

/-- Modelled from the spec: `ClientSettingsPolicySpec` with optional `Body`
and `KeepAlive` blocks. -/
structure ClientSettingsPolicySpec where
  Body : Option ClientBody
  KeepAlive : Option KeepAlive
deriving DecidableEq

/-- Modelled from the spec: a `ClientSettingsPolicy` object with its kind and
`namespace`/`name` identity (the fields the generators read). -/
structure ClientSettingsPolicy where
  Kind : String
  Namespace : String
  Name : String
  Spec : ClientSettingsPolicySpec
deriving DecidableEq

/-- Model of the open `policies.Policy` interface: the generators'
type switches distinguish only `*ngfAPI.ClientSettingsPolicy` from every
other implementation, so other policy kinds are collapsed into an opaque
tag. -/
inductive Policy where
  | clientSettings (csp : ClientSettingsPolicy)
  | otherKind (tag : Nat)
deriving DecidableEq

/-- Rendering of `clientSettingsTemplate` by `helpers.MustExecuteTemplate`:
every directive whose guarding fields are present contributes a newline and
one directive line; the template's trailing newline is always emitted.
Pointer truthiness in `text/template` is non-nilness. -/
def renderClientSettings (spec : ClientSettingsPolicySpec) : String :=
  let bodyPart :=
    match spec.Body with
    | none => ""
    | some body =>
      (match body.MaxSize with
       | some ms => "\nclient_max_body_size " ++ ms ++ ";"
       | none => "") ++
      (match body.Timeout with
       | some t => "\nclient_body_timeout " ++ t ++ ";"
       | none => "")
  let kaPart :=
    match spec.KeepAlive with
    | none => ""
    | some ka =>
      (match ka.Requests with
       | some r => "\nkeepalive_requests " ++ toString r ++ ";"
       | none => "") ++
      (match ka.Time with
       | some t => "\nkeepalive_time " ++ t ++ ";"
       | none => "") ++
      (match ka.Timeout with
       | none => ""
       | some kt =>
         match kt.Server, kt.Header with
         | some s, some h => "\nkeepalive_timeout " ++ s ++ " " ++ h ++ ";"
         | some s, none => "\nkeepalive_timeout " ++ s ++ ";"
         | none, _ => "")
  bodyPart ++ kaPart ++ "\n"

/-- Rendering of `externalRedirectTemplate`: a single `client_max_body_size`
directive surrounded by the template's literal newlines. -/
def renderExternalRedirect (maxBodySize : String) : String :=
  "\nclient_max_body_size " ++ maxBodySize ++ ";\n"

namespace Http

/-- Model of the `http` package's location classification; the embedded code
only compares against `http.ExternalLocationType`. -/
inductive LocationType where
  | external
  | internal
deriving DecidableEq

/-- Model of `http.Location` restricted to the fields the policy generators
read. -/
structure Location where
  «Type» : LocationType
  HTTPMatchKey : String
deriving DecidableEq

/-- Model of `http.Server`; the client-settings generator ignores it. -/
structure Server where
deriving DecidableEq

end Http

namespace PoliciesV1

/-!
Embedding of the first segment of
`internal/mode/static/nginx/config/policies/generator.go`: the framework
whose `GenerateResult` carries a `KeyVals` map merged with `maps.Copy`.
-/

/-- Go `map[string]interface{}`, with `none` for the nil map. The
`interface{}` values are opaque to the merge, so any value type models them;
`String` is used here. -/
abbrev GoMap : Type := Option (List (String × String))

/-- Single-key Go map assignment `m[k] = v` on a non-nil map. -/
def mapUpdate (m : List (String × String)) (k v : String) : List (String × String) :=
  if m.any (fun kv => kv.1 = k) then
    m.map (fun kv => if kv.1 = k then (k, v) else kv)
  else m ++ [(k, v)]

/-- Go `maps.Copy(dst, src)`: ranges over `src` assigning into `dst`.
Assigning any entry into a nil destination map panics (`none` result); an
empty or nil source leaves `dst` untouched. -/
def mapsCopy (dst src : GoMap) : Option GoMap :=
  match src with
  | none => some dst
  | some [] => some dst
  | some entries =>
    match dst with
    | none => none
    | some d => some (some (entries.foldl (fun m kv => mapUpdate m kv.1 kv.2) d))

/-- Source `File` (v1 framework). -/
structure File where
  Name : String
  Content : String
deriving DecidableEq

/-- Source `GenerateResult`: a settings map plus files. A freshly
zero-valued `GenerateResult` has a nil map and nil files. -/
structure GenerateResult where
  KeyVals : GoMap
  Files : List File
deriving DecidableEq

/-- Model of the v1 `Generator` interface as a record of its three
methods. -/
structure Generator where
  GenerateForLocation : List Policy → Http.Location → GenerateResult
  GenerateForInternalLocation : List Policy → Http.Location → GenerateResult
  GenerateForServer : List Policy → Http.Server → GenerateResult

/-- Source `CompositeGenerator` (v1). -/
structure CompositeGenerator where
  generators : List Generator

/-- Source `NewCompositeGenerator` (v1). -/
def NewCompositeGenerator (generators : List Generator) : CompositeGenerator :=
  ⟨generators⟩

/-- Shared loop body of the three composite methods: append the member's
files, then `maps.Copy` its `KeyVals` into the accumulated result (which
starts as the zero value, i.e. a nil map); a `maps.Copy` panic aborts the
whole call. -/
def compositeStep (compositeResult : GenerateResult) (result : GenerateResult) :
    Option GenerateResult :=
  match mapsCopy compositeResult.KeyVals result.KeyVals with
  | none => none
  | some kv => some { KeyVals := kv, Files := compositeResult.Files ++ result.Files }

/-- Source `CompositeGenerator.GenerateForInternalLocation` (v1). -/
def CompositeGenerator.GenerateForInternalLocation (g : CompositeGenerator)
    (pols : List Policy) (internalLocation : Http.Location) : Option GenerateResult :=
  g.generators.foldlM
    (fun compositeResult generator =>
      compositeStep compositeResult (generator.GenerateForInternalLocation pols internalLocation))
    { KeyVals := none, Files := [] }

/-- Source `CompositeGenerator.GenerateForServer` (v1). -/
def CompositeGenerator.GenerateForServer (g : CompositeGenerator)
    (pols : List Policy) (server : Http.Server) : Option GenerateResult :=
  g.generators.foldlM
    (fun compositeResult generator =>
      compositeStep compositeResult (generator.GenerateForServer pols server))
    { KeyVals := none, Files := [] }

/-- Source `CompositeGenerator.GenerateForLocation` (v1). -/
def CompositeGenerator.GenerateForLocation (g : CompositeGenerator)
    (pols : List Policy) (location : Http.Location) : Option GenerateResult :=
  g.generators.foldlM
    (fun compositeResult generator =>
      compositeStep compositeResult (generator.GenerateForLocation pols location))
    { KeyVals := none, Files := [] }

end PoliciesV1

namespace PoliciesV2

/-!
Embedding of the second segment of
`internal/mode/static/nginx/config/policies/generator.go`: the framework
built around `ServerFile`/`LocationFile`/`LocationType` and a composite that
concatenates slices.
-/

/-- Go slice with an observable nil/empty distinction: `none` is the nil
slice, `some l` a non-nil slice holding `l`. -/
abbrev GoSlice (α : Type) : Type := Option (List α)

/-- Elements of a Go slice; ranging over a nil slice visits nothing. -/
def GoSlice.toList {α : Type} : GoSlice α → List α
  | none => []
  | some l => l

/-- Go `append(dst, src...)`: appending nothing returns `dst` unchanged (a
nil `dst` stays nil); appending to a nil slice allocates. -/
def goAppend {α : Type} (dst : GoSlice α) (src : List α) : GoSlice α :=
  match src with
  | [] => dst
  | xs =>
    match dst with
    | none => some xs
    | some d => some (d ++ xs)

/-- Source `ServerFile` (v2 framework). -/
structure ServerFile where
  Name : String
  Content : String
deriving DecidableEq

/-- Source `LocationType` (v2 framework): `Internal`, `External`,
`ExternalRedirect`. -/
inductive LocationType where
  | Internal
  | External
  | ExternalRedirect
deriving DecidableEq

/-- Source `LocationFile` (v2 framework). -/
structure LocationFile where
  Name : String
  «Type» : LocationType
  Content : String
deriving DecidableEq

/-- Source `GenerateForServerResult` (v2 framework). -/
abbrev GenerateForServerResult := GoSlice ServerFile

/-- Source `GenerateForLocationResult` (v2 framework). -/
abbrev GenerateForLocationResult := GoSlice LocationFile

/-- Source `GenerateForLocationResult.ForInternalLocation`: a loop over the
receiver appending exactly the files tagged `Internal` to a fresh non-nil
slice. -/
def GenerateForLocationResult.ForInternalLocation (locFile : GenerateForLocationResult) :
    List LocationFile :=
  (GoSlice.toList locFile).foldl
    (fun files f => if f.Type = LocationType.Internal then files ++ [f] else files) []

/-- Source `GenerateForLocationResult.ForExternalLocation`: keeps exactly the
files tagged `External`, in order. -/
def GenerateForLocationResult.ForExternalLocation (locFile : GenerateForLocationResult) :
    List LocationFile :=
  (GoSlice.toList locFile).foldl
    (fun files f => if f.Type = LocationType.External then files ++ [f] else files) []

/-- Source `GenerateForLocationResult.ForExternalRedirectLocation`: keeps
exactly the files tagged `ExternalRedirect`, in order. -/
def GenerateForLocationResult.ForExternalRedirectLocation (locFile : GenerateForLocationResult) :
    List LocationFile :=
  (GoSlice.toList locFile).foldl
    (fun files f => if f.Type = LocationType.ExternalRedirect then files ++ [f] else files) []

/-- Source `dataplane.VirtualServer` restricted to the `Policies` field the
generators read. -/
structure VirtualServer where
  Policies : List Policy
deriving DecidableEq

/-- Source `dataplane.MatchRule` restricted to the `Policies` field. -/
structure MatchRule where
  Policies : List Policy
deriving DecidableEq

/-- Source `dataplane.PathRule` restricted to the fields the generators
read; `PathType` is the Gateway API path-match type rendered with `%s`. -/
structure PathRule where
  Path : String
  PathType : String
  MatchRules : List MatchRule
deriving DecidableEq

/-- Model of the v2 `Generator` interface as a record of its three
methods. -/
structure Generator where
  GenerateForServer : VirtualServer → GenerateForServerResult
  GenerateForPathRule : PathRule → GenerateForLocationResult
  GenerateForMatchRule : MatchRule → GenerateForLocationResult

/-- Source `CompositeGenerator` (v2). -/
structure CompositeGenerator where
  generators : List Generator

/-- Source `NewCompositeGenerator` (v2). -/
def NewCompositeGenerator (generators : List Generator) : CompositeGenerator :=
  ⟨generators⟩

/-- Source `CompositeGenerator.GenerateForServer` (v2): starts from the
zero-valued (nil) result slice and spreads each member's output into it. -/
def CompositeGenerator.GenerateForServer (g : CompositeGenerator)
    (server : VirtualServer) : GenerateForServerResult :=
  g.generators.foldl
    (fun results generator => goAppend results (GoSlice.toList (generator.GenerateForServer server)))
    none

/-- Source `CompositeGenerator.GenerateForPathRule` (v2). -/
def CompositeGenerator.GenerateForPathRule (g : CompositeGenerator)
    (rule : PathRule) : GenerateForLocationResult :=
  g.generators.foldl
    (fun results generator => goAppend results (GoSlice.toList (generator.GenerateForPathRule rule)))
    none

/-- Source `CompositeGenerator.GenerateForMatchRule` (v2). -/
def CompositeGenerator.GenerateForMatchRule (g : CompositeGenerator)
    (rule : MatchRule) : GenerateForLocationResult :=
  g.generators.foldl
    (fun results generator => goAppend results (GoSlice.toList (generator.GenerateForMatchRule rule)))
    none

end PoliciesV2

namespace ClientSettingsRegex

/-!
Entry points of
`internal/mode/static/nginx/config/policies/clientsettings/generator.go`
(v1 framework, regex-based `getMaxSize`).
-/

/-- Source `Generator.GenerateForServer` (regex variant): one
`..._server.conf` file per attached `ClientSettingsPolicy`, skipping files
whose rendered content is empty (the source comments that this check cannot
fire, since the template always emits its trailing newline). -/
def GenerateForServer (pols : List Policy) (_server : Http.Server) : PoliciesV1.GenerateResult :=
  let files := pols.foldl
    (fun files pol =>
      match pol with
      | .clientSettings csp =>
        let content := renderClientSettings csp.Spec
        if content.length = 0 then files
        else files ++ [{ Name := "ClientSettingsPolicy_" ++ csp.Namespace ++ "_" ++ csp.Name ++ "_server.conf",
                         Content := content : PoliciesV1.File }]
      | .otherKind _ => files)
    []
  { KeyVals := none, Files := files }

/-- Merge loop of `GenerateForLocation` (regex variant): fold `getMaxSize`
over the `Body.MaxSize` of every attached `ClientSettingsPolicy` whose
`Body` and `MaxSize` are non-nil, starting from the empty literal; `none`
propagates a `getMaxSize` panic. -/
def computeMaxBodySize (pols : List Policy) : Option String :=
  pols.foldlM
    (fun maxBodySize pol =>
      match pol with
      | .clientSettings csp =>
        match csp.Spec.Body with
        | some body =>
          match body.MaxSize with
          | some ms => getMaxSize maxBodySize ms
          | none => some maxBodySize
        | none => some maxBodySize
      | .otherKind _ => some maxBodySize)
    ""

/-- Source `Generator.GenerateForLocation` (regex variant): for an external
location, one `..._ext.conf` file per attached policy; otherwise the merged
body-size maximum yields either no file or a single
`ClientSettingsPolicy_<HTTPMatchKey>_redirect.conf` file. -/
def GenerateForLocation (pols : List Policy) (location : Http.Location) :
    Option PoliciesV1.GenerateResult :=
  if location.Type = Http.LocationType.external then
    some { KeyVals := none,
           Files := pols.foldl
             (fun files pol =>
               match pol with
               | .clientSettings csp =>
                 files ++ [{ Name := "ClientSettingsPolicy_" ++ csp.Namespace ++ "_" ++ csp.Name ++ "_ext.conf",
                             Content := renderClientSettings csp.Spec : PoliciesV1.File }]
               | .otherKind _ => files)
             [] }
  else
    match computeMaxBodySize pols with
    | none => none
    | some maxBodySize =>
      if maxBodySize = "" then some { KeyVals := none, Files := [] }
      else some { KeyVals := none,
                  Files := [{ Name := "ClientSettingsPolicy_" ++ location.HTTPMatchKey ++ "_redirect.conf",
                              Content := renderExternalRedirect maxBodySize }] }

/-- Source `Generator.GenerateForInternalLocation` (regex variant): one
`..._int.conf` file per attached policy. -/
def GenerateForInternalLocation (pols : List Policy) (_location : Http.Location) :
    PoliciesV1.GenerateResult :=
  { KeyVals := none,
    Files := pols.foldl
      (fun files pol =>
        match pol with
        | .clientSettings csp =>
          files ++ [{ Name := "ClientSettingsPolicy_" ++ csp.Namespace ++ "_" ++ csp.Name ++ "_int.conf",
                      Content := renderClientSettings csp.Spec : PoliciesV1.File }]
        | .otherKind _ => files)
      [] }

end ClientSettingsRegex

namespace ClientSettingsP1

/-!
Embedding of `unnamed/part_001`'s `Generator.GenerateForLocation` (v1
framework, suffix-comparison `getMaxSize`); the claims reference only this
entry point of that file.
-/

/-- Merge loop of `GenerateForLocation` in `unnamed/part_001`: folds the
suffix-comparison `getMaxSize` over `csp.Spec.Body.MaxSize` (a `*Size`,
passed as an `Option` without dereferencing) for every policy whose `Body`
is non-nil. -/
def computeMaxBodySize (pols : List Policy) : Option String :=
  pols.foldlM
    (fun maxBodySize pol =>
      match pol with
      | .clientSettings csp =>
        match csp.Spec.Body with
        | some body => CSLegacy.getMaxSize maxBodySize body.MaxSize
        | none => some maxBodySize
      | .otherKind _ => some maxBodySize)
    ""

/-- Source `Generator.GenerateForLocation` (`unnamed/part_001`): identical
shape to the regex variant but with the suffix-comparison merge. -/
def GenerateForLocation (pols : List Policy) (location : Http.Location) :
    Option PoliciesV1.GenerateResult :=
  if location.Type = Http.LocationType.external then
    some { KeyVals := none,
           Files := pols.foldl
             (fun files pol =>
               match pol with
               | .clientSettings csp =>
                 files ++ [{ Name := "ClientSettingsPolicy_" ++ csp.Namespace ++ "_" ++ csp.Name ++ "_ext.conf",
                             Content := renderClientSettings csp.Spec : PoliciesV1.File }]
               | .otherKind _ => files)
             [] }
  else
    match computeMaxBodySize pols with
    | none => none
    | some maxBodySize =>
      if maxBodySize = "" then some { KeyVals := none, Files := [] }
      else some { KeyVals := none,
                  Files := [{ Name := "ClientSettingsPolicy_" ++ location.HTTPMatchKey ++ "_redirect.conf",
                              Content := renderExternalRedirect maxBodySize }] }

end ClientSettingsP1

namespace ClientSettingsV2

/-!
Embedding of the final segment of
`internal/mode/static/nginx/config/policies/generator.go`: the v2
client-settings generator (suffix-comparison `getMaxSize`).
-/

open PoliciesV2

/-- Source `Generator.GenerateForServer` (v2): one `<Kind>_<Ns>_<Name>.conf`
server file per attached `ClientSettingsPolicy` (note: no scope suffix in
this variant). The result slice is allocated with `make`, hence non-nil even
when empty. -/
def GenerateForServer (server : VirtualServer) : GenerateForServerResult :=
  some (server.Policies.foldl
    (fun results pol =>
      match pol with
      | .clientSettings csp =>
        results ++ [{ Name := csp.Kind ++ "_" ++ csp.Namespace ++ "_" ++ csp.Name ++ ".conf",
                      Content := renderClientSettings csp.Spec : ServerFile }]
      | .otherKind _ => results)
    [])

/-- Source `removeSlashFromPath`: `strings.ReplaceAll(path, "/", "")`. -/
def removeSlashFromPath (path : String) : String :=
  String.mk (path.data.filter (fun c => c ≠ '/'))

/-- Merge loop of `Generator.GenerateForPathRule` (v2): folds the
suffix-comparison `getMaxSize` over every match rule's policies. -/
def computeMaxBodySize (rule : PathRule) : Option String :=
  rule.MatchRules.foldlM
    (fun maxBodySize mr =>
      mr.Policies.foldlM
        (fun maxBodySize pol =>
          match pol with
          | .clientSettings csp =>
            match csp.Spec.Body with
            | some body => CSLegacy.getMaxSize maxBodySize body.MaxSize
            | none => some maxBodySize
          | .otherKind _ => some maxBodySize)
        maxBodySize)
    ""

/-- Source `Generator.GenerateForPathRule` (v2): returns the nil slice when
the merged maximum is empty, else exactly one `ExternalRedirect` file named
`ClientSettingsPolicy_<PathType>_<path-without-slashes>_redirect.conf`.
The outer `Option` propagates a `getMaxSize` panic. -/
def GenerateForPathRule (rule : PathRule) : Option GenerateForLocationResult :=
  match computeMaxBodySize rule with
  | none => none
  | some maxBodySize =>
    if maxBodySize = "" then some none
    else some (some
      [{ Name := "ClientSettingsPolicy_" ++ rule.PathType ++ "_" ++ removeSlashFromPath rule.Path ++ "_redirect.conf",
         «Type» := LocationType.ExternalRedirect,
         Content := renderExternalRedirect maxBodySize }])

/-- Source `Generator.GenerateForMatchRule` (v2): per attached policy, an
`_int.conf` and an `_ext.conf` file with identical content; the slice is
`make`-allocated, hence non-nil even when empty. -/
def GenerateForMatchRule (rule : MatchRule) : GenerateForLocationResult :=
  some (rule.Policies.foldl
    (fun results pol =>
      match pol with
      | .clientSettings csp =>
        let fileContents := renderClientSettings csp.Spec
        results ++
          [{ Name := csp.Kind ++ "_" ++ csp.Namespace ++ "_" ++ csp.Name ++ "_int.conf",
             Content := fileContents, «Type» := LocationType.Internal },
           { Name := csp.Kind ++ "_" ++ csp.Namespace ++ "_" ++ csp.Name ++ "_ext.conf",
             Content := fileContents, «Type» := LocationType.External }]
      | .otherKind _ => results)
    [])

end ClientSettingsV2

namespace RouteState

/-!
Embedding of the `state` package segment of `cmd/gateway/main.go`:
`sortRoutes`, `higherPriority`, `lessObjectMeta`.
-/

/-- Modelled from the spec: a single header match of a route match entry
(only its presence is counted by the comparator). -/
structure HeaderMatch where
  Name : String
  Value : String
deriving DecidableEq

/-- Modelled from the spec: a single query-parameter match of a route match
entry. -/
structure QueryParamMatch where
  Name : String
  Value : String
deriving DecidableEq

/-- Modelled from the spec: the match entry a route exposes for precedence
comparison, with its header and query-parameter match lists. -/
structure RouteMatch where
  Headers : List HeaderMatch
  QueryParams : List QueryParamMatch
deriving DecidableEq

/-- Model of `metav1.ObjectMeta` restricted to the fields the comparator
reads; `CreationTimestamp` is an instant, compared with `Equal`/`Before`,
modelled as an integer with `=`/`<`. -/
structure ObjectMeta where
  Namespace : String
  Name : String
  CreationTimestamp : Int
deriving DecidableEq

/-- Model of the route's source object, carrying its embedded
`ObjectMeta`. -/
structure HTTPRouteSource where
  ObjectMeta : ObjectMeta
deriving DecidableEq

/-- Modelled from the spec: a `state.Route` carries its source object's
metadata, and `GetMatch` returns "the single Match relevant to the
comparison context" — held here as the `matchEntry` field. The `Route` type
and `GetMatch` body are not under the sources (only their callers are). -/
structure Route where
  Source : HTTPRouteSource
  matchEntry : RouteMatch
deriving DecidableEq

/-- Modelled from the spec: accessor used by `higherPriority`. -/
def Route.GetMatch (r : Route) : RouteMatch :=
  r.matchEntry

/-- Modelled from the spec: `getResourceKey` is the `namespace/name`
resource identity key; not under the sources (only its caller
`lessObjectMeta` is). -/
def getResourceKey (meta : ObjectMeta) : String :=
  meta.Namespace ++ "/" ++ meta.Name

/-- Source `lessObjectMeta`: equal creation timestamps fall through to the
lexicographic resource-key comparison, otherwise the earlier timestamp
wins. -/
def lessObjectMeta (meta1 meta2 : ObjectMeta) : Bool :=
  if meta1.CreationTimestamp = meta2.CreationTimestamp then
    decide (getResourceKey meta1 < getResourceKey meta2)
  else
    decide (meta1.CreationTimestamp < meta2.CreationTimestamp)

/-- Source `higherPriority`: header-match count, then query-parameter-match
count, then `lessObjectMeta`. -/
def higherPriority (route1 route2 : Route) : Bool :=
  let match1 := route1.GetMatch
  let match2 := route2.GetMatch
  let l1 := match1.Headers.length
  let l2 := match2.Headers.length
  if l1 ≠ l2 then decide (l1 > l2)
  else
    let q1 := match1.QueryParams.length
    let q2 := match2.QueryParams.length
    if q1 ≠ q2 then decide (q1 > q2)
    else lessObjectMeta route1.Source.ObjectMeta route2.Source.ObjectMeta

/-- Source `sortRoutes`: Go's `sort.SliceStable` with `higherPriority` as
the `less` function, i.e. a stable sort whose non-strict comparison is
"`route2` is not of higher priority than `route1`". -/
def sortRoutes (routes : List Route) : List Route :=
  routes.mergeSort (fun a b => ! higherPriority b a)

/-- Comparator written out from the specification's own wording: four
criteria in fixed order — more header matches, more query-parameter
matches, earlier creation timestamp, lexicographically smaller
`namespace/name` key — each applying only when all earlier ones tie. -/
def higherPrioritySpec (route1 route2 : Route) : Bool :=
  let h1 := route1.GetMatch.Headers.length
  let h2 := route2.GetMatch.Headers.length
  let q1 := route1.GetMatch.QueryParams.length
  let q2 := route2.GetMatch.QueryParams.length
  let t1 := route1.Source.ObjectMeta.CreationTimestamp
  let t2 := route2.Source.ObjectMeta.CreationTimestamp
  let k1 := getResourceKey route1.Source.ObjectMeta
  let k2 := getResourceKey route2.Source.ObjectMeta
  if h1 ≠ h2 then decide (h1 > h2)
  else if q1 ≠ q2 then decide (q1 > q2)
  else if t1 ≠ t2 then decide (t1 < t2)
  else decide (k1 < k2)

theorem higherPriority_eq_spec (route1 route2 : Route) :
    higherPriority route1 route2 = higherPrioritySpec route1 route2 := by
  unfold higherPriority higherPrioritySpec lessObjectMeta
  by_cases hh : route1.GetMatch.Headers.length = route2.GetMatch.Headers.length <;>
    by_cases hq : route1.GetMatch.QueryParams.length = route2.GetMatch.QueryParams.length <;>
      by_cases ht : route1.Source.ObjectMeta.CreationTimestamp
          = route2.Source.ObjectMeta.CreationTimestamp <;>
        simp [hh, hq, ht]

end RouteState

namespace RouteState

theorem higherPriority_iff (r1 r2 : Route) :
    higherPriority r1 r2 = true ↔
      (r1.GetMatch.Headers.length > r2.GetMatch.Headers.length
        ∨ (r1.GetMatch.Headers.length = r2.GetMatch.Headers.length
          ∧ (r1.GetMatch.QueryParams.length > r2.GetMatch.QueryParams.length
            ∨ (r1.GetMatch.QueryParams.length = r2.GetMatch.QueryParams.length
              ∧ (r1.Source.ObjectMeta.CreationTimestamp < r2.Source.ObjectMeta.CreationTimestamp
                ∨ (r1.Source.ObjectMeta.CreationTimestamp
                      = r2.Source.ObjectMeta.CreationTimestamp
                  ∧ getResourceKey r1.Source.ObjectMeta
                      < getResourceKey r2.Source.ObjectMeta)))))) := by
  unfold higherPriority lessObjectMeta
  by_cases hh : r1.GetMatch.Headers.length = r2.GetMatch.Headers.length <;>
    by_cases hq : r1.GetMatch.QueryParams.length = r2.GetMatch.QueryParams.length <;>
      by_cases ht : r1.Source.ObjectMeta.CreationTimestamp
          = r2.Source.ObjectMeta.CreationTimestamp <;>
        simp [hh, hq, ht]

theorem lexLike_trans {h1 h2 h3 q1 q2 q3 : Nat} {t1 t2 t3 : Int} {k1 k2 k3 : String}
    (H12 : h1 > h2 ∨ (h1 = h2 ∧ (q1 > q2 ∨ (q1 = q2 ∧ (t1 < t2 ∨ (t1 = t2 ∧ k1 < k2))))))
    (H23 : h2 > h3 ∨ (h2 = h3 ∧ (q2 > q3 ∨ (q2 = q3 ∧ (t2 < t3 ∨ (t2 = t3 ∧ k2 < k3)))))) :
    h1 > h3 ∨ (h1 = h3 ∧ (q1 > q3 ∨ (q1 = q3 ∧ (t1 < t3 ∨ (t1 = t3 ∧ k1 < k3))))) := by
  rcases H12 with hH | ⟨eH, H12q⟩
  · rcases H23 with hH' | ⟨eH', _⟩
    · left; omega
    · left; omega
  · rcases H23 with hH' | ⟨eH', H23q⟩
    · left; omega
    · refine Or.inr ⟨by omega, ?_⟩
      rcases H12q with hQ | ⟨eQ, H12t⟩
      · rcases H23q with hQ' | ⟨eQ', _⟩
        · left; omega
        · left; omega
      · rcases H23q with hQ' | ⟨eQ', H23t⟩
        · left; omega
        · refine Or.inr ⟨by omega, ?_⟩
          rcases H12t with hT | ⟨eT, hK⟩
          · rcases H23t with hT' | ⟨eT', _⟩
            · left; omega
            · left; omega
          · rcases H23t with hT' | ⟨eT', hK'⟩
            · left; omega
            · exact Or.inr ⟨by omega, lt_trans hK hK'⟩

theorem lexLike_asymm {h1 h2 q1 q2 : Nat} {t1 t2 : Int} {k1 k2 : String}
    (H12 : h1 > h2 ∨ (h1 = h2 ∧ (q1 > q2 ∨ (q1 = q2 ∧ (t1 < t2 ∨ (t1 = t2 ∧ k1 < k2))))))
    (H21 : h2 > h1 ∨ (h2 = h1 ∧ (q2 > q1 ∨ (q2 = q1 ∧ (t2 < t1 ∨ (t2 = t1 ∧ k2 < k1)))))) :
    False := by
  rcases H12 with hH | ⟨eH, H12q⟩ <;> rcases H21 with hH' | ⟨eH', H21q⟩
  · omega
  · omega
  · omega
  · rcases H12q with hQ | ⟨eQ, H12t⟩ <;> rcases H21q with hQ' | ⟨eQ', H21t⟩
    · omega
    · omega
    · omega
    · rcases H12t with hT | ⟨eT, hK⟩ <;> rcases H21t with hT' | ⟨eT', hK'⟩
      · omega
      · omega
      · omega
      · exact absurd hK' (lt_asymm hK)

theorem lexLike_tricho (h1 h2 q1 q2 : Nat) (t1 t2 : Int) (k1 k2 : String) :
    (h1 > h2 ∨ (h1 = h2 ∧ (q1 > q2 ∨ (q1 = q2 ∧ (t1 < t2 ∨ (t1 = t2 ∧ k1 < k2))))))
      ∨ (h2 > h1 ∨ (h2 = h1 ∧ (q2 > q1 ∨ (q2 = q1 ∧ (t2 < t1 ∨ (t2 = t1 ∧ k2 < k1))))))
      ∨ (h1 = h2 ∧ q1 = q2 ∧ t1 = t2 ∧ k1 = k2) := by
  rcases Nat.lt_trichotomy h1 h2 with hH | hH | hH
  · exact Or.inr (Or.inl (Or.inl hH))
  · rcases Nat.lt_trichotomy q1 q2 with hQ | hQ | hQ
    · exact Or.inr (Or.inl (Or.inr ⟨hH.symm, Or.inl hQ⟩))
    · rcases Int.lt_trichotomy t1 t2 with hT | hT | hT
      · exact Or.inl (Or.inr ⟨hH, Or.inr ⟨hQ, Or.inl hT⟩⟩)
      · rcases lt_trichotomy k1 k2 with hK | hK | hK
        · exact Or.inl (Or.inr ⟨hH, Or.inr ⟨hQ, Or.inr ⟨hT, hK⟩⟩⟩)
        · exact Or.inr (Or.inr ⟨hH, hQ, hT, hK⟩)
        · exact Or.inr (Or.inl (Or.inr ⟨hH.symm, Or.inr ⟨hQ.symm, Or.inr ⟨hT.symm, hK⟩⟩⟩))
      · exact Or.inr (Or.inl (Or.inr ⟨hH.symm, Or.inr ⟨hQ.symm, Or.inl hT⟩⟩))
    · exact Or.inl (Or.inr ⟨hH, Or.inl hQ⟩)
  · exact Or.inl (Or.inl hH)

theorem higherPriority_trans {a b c : Route} (hab : higherPriority a b = true)
    (hbc : higherPriority b c = true) : higherPriority a c = true := by
  rw [higherPriority_iff] at hab hbc ⊢
  exact lexLike_trans hab hbc

theorem higherPriority_asymm {a b : Route} (hab : higherPriority a b = true)
    (hba : higherPriority b a = true) : False := by
  rw [higherPriority_iff] at hab hba
  exact lexLike_asymm hab hba

theorem higherPriority_tricho (a b : Route) :
    higherPriority a b = true ∨ higherPriority b a = true
      ∨ (a.GetMatch.Headers.length = b.GetMatch.Headers.length
          ∧ a.GetMatch.QueryParams.length = b.GetMatch.QueryParams.length
          ∧ a.Source.ObjectMeta.CreationTimestamp = b.Source.ObjectMeta.CreationTimestamp
          ∧ getResourceKey a.Source.ObjectMeta = getResourceKey b.Source.ObjectMeta) := by
  rw [higherPriority_iff, higherPriority_iff]
  exact lexLike_tricho _ _ _ _ _ _ _ _

theorem higherPriority_congr_right {a b : Route} (x : Route)
    (hH : a.GetMatch.Headers.length = b.GetMatch.Headers.length)
    (hQ : a.GetMatch.QueryParams.length = b.GetMatch.QueryParams.length)
    (hT : a.Source.ObjectMeta.CreationTimestamp = b.Source.ObjectMeta.CreationTimestamp)
    (hK : getResourceKey a.Source.ObjectMeta = getResourceKey b.Source.ObjectMeta) :
    (higherPriority x a = true ↔ higherPriority x b = true) := by
  rw [higherPriority_iff, higherPriority_iff, hH, hQ, hT, hK]

theorem higherPriority_congr_left {a b : Route} (x : Route)
    (hH : a.GetMatch.Headers.length = b.GetMatch.Headers.length)
    (hQ : a.GetMatch.QueryParams.length = b.GetMatch.QueryParams.length)
    (hT : a.Source.ObjectMeta.CreationTimestamp = b.Source.ObjectMeta.CreationTimestamp)
    (hK : getResourceKey a.Source.ObjectMeta = getResourceKey b.Source.ObjectMeta) :
    (higherPriority a x = true ↔ higherPriority b x = true) := by
  rw [higherPriority_iff, higherPriority_iff, hH, hQ, hT, hK]

theorem hp_le_total (a b : Route) :
    ((! higherPriority a b) || (! higherPriority b a)) = true := by
  rcases h1 : higherPriority a b with _ | _
  · simp
  · rcases h2 : higherPriority b a with _ | _
    · simp
    · exact (higherPriority_asymm h1 h2).elim

theorem hp_le_trans (a b c : Route) ( h1 : (! higherPriority b a) = true)
    ( h2 : (! higherPriority c b) = true) : (! higherPriority c a) = true := by
  simp only [Bool.not_eq_true'] at h1 h2 ⊢
  by_contra hca
  replace hca : higherPriority c a = true := by
    cases h : higherPriority c a
    · exact absurd h hca
    · rfl
  rcases higherPriority_tricho c b with hcb | hbc | ⟨eH, eQ, eT, eK⟩
  · rw [hcb] at h2; cases h2
  · rcases higherPriority_tricho b a with hba | hab | ⟨eH', eQ', eT', eK'⟩
    · rw [hba] at h1; cases h1
    · have := higherPriority_trans hca hab
      rw [this] at h2; cases h2
    · have : higherPriority c b = true :=
        (higherPriority_congr_right c eH'.symm eQ'.symm eT'.symm eK'.symm).mp hca
      rw [this] at h2; cases h2
  · have : higherPriority b a = true :=
      (higherPriority_congr_left a eH eQ eT eK).mp hca
    rw [this] at h1; cases h1

end RouteState

/-!
Supporting lemmas about the regex-based size merge.
-/

theorem parseSizeToBytes_ne_empty {s : String} {b : Int}
    (h : ClientSettingsRegex.parseSizeToBytes s = .ok b) : s ≠ "" := by
  intro he
  subst he
  exact Except.noConfusion h

theorem getMaxSize_byteMax {s1 s2 : String} {b1 b2 : Int}
    (h1 : ClientSettingsRegex.parseSizeToBytes s1 = .ok b1)
    (h2 : ClientSettingsRegex.parseSizeToBytes s2 = .ok b2) :
    ∃ r, ClientSettingsRegex.getMaxSize s1 s2 = some r ∧ (r = s1 ∨ r = s2)
      ∧ ClientSettingsRegex.parseSizeToBytes r = .ok (max b1 b2) := by
  have hs1 : s1 ≠ "" := parseSizeToBytes_ne_empty h1
  have hs2 : s2 ≠ "" := parseSizeToBytes_ne_empty h2
  unfold ClientSettingsRegex.getMaxSize
  rw [if_neg hs1, if_neg hs2, h1, h2]
  by_cases hgt : b1 > b2
  · refine ⟨s1, by simp [hgt], Or.inl rfl, ?_⟩
    rw [h1]
    congr 1
    omega
  · refine ⟨s2, by simp [hgt], Or.inr rfl, ?_⟩
    rw [h2]
    congr 1
    omega

/-- C1: for grammar-accepted literals the merge is claimed to return a
literal with the maximal byte count, reading units case-insensitively.  The
suffix-comparison `getMaxSize` (cited in `policies/generator.go`) violates
the byte-count maximum on all-lowercase grammar-valid input: merging the
byte literal `"9999"` (9999 bytes) with `"1k"` (1024 bytes) yields `"1k"`.
The regex-based `getMaxSize` panics on an uppercase unit instead of reading
it case-insensitively. -/
theorem claim_C1_code_eval :
    CSLegacy.getMaxSize "9999" (some "1k") = some "1k"
      ∧ ClientSettingsRegex.parseSizeToBytes "9999" = .ok 9999
      ∧ ClientSettingsRegex.parseSizeToBytes "1k" = .ok 1024
      ∧ CSLegacy.getMaxSize "5" (some "7") = some "5"
      ∧ ClientSettingsRegex.getMaxSize "1K" "2k" = none :=
  ⟨by decide, rfl, rfl, by decide, by decide⟩

/-- C2: `higherPriority` decides precedence by exactly the four claimed
criteria in the claimed order — header-match count, query-parameter-match
count, earlier creation timestamp, lexicographically smaller
`namespace/name` key — each applying only when all earlier ones tie; it
coincides with the comparator transcribed from that description. -/
theorem claim_C2_higherPriority_criteria (route1 route2 : RouteState.Route) :
    RouteState.higherPriority route1 route2 = RouteState.higherPrioritySpec route1 route2 :=
  RouteState.higherPriority_eq_spec route1 route2

/-- C4: malformed size literals are claimed to be rejected as a typed
generation error without crashing the pass.  `parseSizeToBytes` does return
a typed error for the five-digit literal `"12345"`, but `getMaxSize` panics
on that error (modelled as `none`) instead of propagating it. -/
theorem claim_C4_code_eval :
    ClientSettingsRegex.parseSizeToBytes "12345"
        = .error "invalid size format, could not find submatches: 12345"
      ∧ ClientSettingsRegex.getMaxSize "1k" "12345" = none :=
  ⟨rfl, by decide⟩

/-- C5: the composite's `KeyVals` merge is claimed to be last-writer-wins
and to complete for any combination of nil, empty and non-empty member
maps.  The composite never initializes its own `KeyVals` map, so
`maps.Copy` into the nil map panics (modelled as `none`) as soon as one
member returns a non-empty map. -/
theorem claim_C5_code_eval :
    PoliciesV1.CompositeGenerator.GenerateForLocation
        (PoliciesV1.NewCompositeGenerator
          [{ GenerateForLocation := fun _ _ =>
               { KeyVals := some [("client_max_body_size", "1m")], Files := [] },
             GenerateForInternalLocation := fun _ _ => { KeyVals := none, Files := [] },
             GenerateForServer := fun _ _ => { KeyVals := none, Files := [] } }])
        [] { «Type» := Http.LocationType.internal, HTTPMatchKey := "match" }
      = none := by
  decide

/-!
Supporting lemmas for the v2 location-file filters.
-/

theorem foldl_if_append {α : Type} (p : α → Prop) [DecidablePred p] (xs acc : List α) :
    xs.foldl (fun files f => if p f then files ++ [f] else files) acc
      = acc ++ xs.filter (fun f => decide (p f)) := by
  induction xs generalizing acc with
  | nil => simp
  | cons x xs ih =>
    by_cases h : p x
    · simp [List.foldl_cons, h, ih, List.filter_cons]
    · simp [List.foldl_cons, h, ih, List.filter_cons]

namespace PoliciesV2

theorem forInternal_eq_filter (l : GenerateForLocationResult) :
    GenerateForLocationResult.ForInternalLocation l
      = (GoSlice.toList l).filter (fun f => decide (f.Type = LocationType.Internal)) := by
  unfold GenerateForLocationResult.ForInternalLocation
  simpa using foldl_if_append (fun f : LocationFile => f.Type = LocationType.Internal)
    (GoSlice.toList l) []

theorem forExternal_eq_filter (l : GenerateForLocationResult) :
    GenerateForLocationResult.ForExternalLocation l
      = (GoSlice.toList l).filter (fun f => decide (f.Type = LocationType.External)) := by
  unfold GenerateForLocationResult.ForExternalLocation
  simpa using foldl_if_append (fun f : LocationFile => f.Type = LocationType.External)
    (GoSlice.toList l) []

theorem forExternalRedirect_eq_filter (l : GenerateForLocationResult) :
    GenerateForLocationResult.ForExternalRedirectLocation l
      = (GoSlice.toList l).filter (fun f => decide (f.Type = LocationType.ExternalRedirect)) := by
  unfold GenerateForLocationResult.ForExternalRedirectLocation
  simpa using foldl_if_append (fun f : LocationFile => f.Type = LocationType.ExternalRedirect)
    (GoSlice.toList l) []

theorem filter_three_length (xs : List LocationFile) :
    (xs.filter (fun f => decide (f.Type = LocationType.Internal))).length
      + (xs.filter (fun f => decide (f.Type = LocationType.External))).length
      + (xs.filter (fun f => decide (f.Type = LocationType.ExternalRedirect))).length
      = xs.length := by
  induction xs with
  | nil => rfl
  | cons x xs ih =>
    cases hx : x.Type <;> simp [List.filter_cons, hx, ih] <;> omega

end PoliciesV2

/-- C10: the three filter methods partition a `GenerateForLocationResult` by
the `Type` tag — a file is in `ForInternalLocation` iff it is in the input
with tag `Internal`, and correspondingly for `External` and
`ExternalRedirect`; each filter output is a sublist of the input (relative
order preserved) and the three output lengths sum to the input length, so a
tagged file lands in exactly one filter output. -/
theorem claim_C10_filters_partition (l : PoliciesV2.GenerateForLocationResult) :
    (∀ f : PoliciesV2.LocationFile,
      (f ∈ PoliciesV2.GenerateForLocationResult.ForInternalLocation l
          ↔ f ∈ PoliciesV2.GoSlice.toList l ∧ f.Type = PoliciesV2.LocationType.Internal)
      ∧ (f ∈ PoliciesV2.GenerateForLocationResult.ForExternalLocation l
          ↔ f ∈ PoliciesV2.GoSlice.toList l ∧ f.Type = PoliciesV2.LocationType.External)
      ∧ (f ∈ PoliciesV2.GenerateForLocationResult.ForExternalRedirectLocation l
          ↔ f ∈ PoliciesV2.GoSlice.toList l ∧ f.Type = PoliciesV2.LocationType.ExternalRedirect))
    ∧ (PoliciesV2.GenerateForLocationResult.ForInternalLocation l).Sublist
        (PoliciesV2.GoSlice.toList l)
    ∧ (PoliciesV2.GenerateForLocationResult.ForExternalLocation l).Sublist
        (PoliciesV2.GoSlice.toList l)
    ∧ (PoliciesV2.GenerateForLocationResult.ForExternalRedirectLocation l).Sublist
        (PoliciesV2.GoSlice.toList l)
    ∧ (PoliciesV2.GenerateForLocationResult.ForInternalLocation l).length
        + (PoliciesV2.GenerateForLocationResult.ForExternalLocation l).length
        + (PoliciesV2.GenerateForLocationResult.ForExternalRedirectLocation l).length
        = (PoliciesV2.GoSlice.toList l).length := by
  refine ⟨fun f => ⟨?_, ?_, ?_⟩, ?_, ?_, ?_, ?_⟩
  · rw [PoliciesV2.forInternal_eq_filter]
    simp [List.mem_filter]
  · rw [PoliciesV2.forExternal_eq_filter]
    simp [List.mem_filter]
  · rw [PoliciesV2.forExternalRedirect_eq_filter]
    simp [List.mem_filter]
  · rw [PoliciesV2.forInternal_eq_filter]
    exact List.filter_sublist _
  · rw [PoliciesV2.forExternal_eq_filter]
    exact List.filter_sublist _
  · rw [PoliciesV2.forExternalRedirect_eq_filter]
    exact List.filter_sublist _
  · rw [PoliciesV2.forInternal_eq_filter, PoliciesV2.forExternal_eq_filter,
      PoliciesV2.forExternalRedirect_eq_filter]
    exact PoliciesV2.filter_three_length _

/-- Discriminator for the generators' type switch: whether a policy is a
`*ClientSettingsPolicy`. -/
def Policy.isCSP : Policy → Bool
  | .clientSettings _ => true
  | .otherKind _ => false

theorem foldl_const_of_no_csp {β : Type} (step : β → Policy → β)
    (hstep : ∀ acc t, step acc (Policy.otherKind t) = acc)
    (pols : List Policy) (h : ∀ p ∈ pols, p.isCSP = false) (acc : β) :
    pols.foldl step acc = acc := by
  induction pols generalizing acc with
  | nil => rfl
  | cons p ps ih =>
    cases p with
    | clientSettings csp =>
      have := h _ (List.mem_cons_self _ _)
      simp [Policy.isCSP] at this
    | otherKind t =>
      rw [List.foldl_cons, hstep]
      exact ih (fun q hq => h q (List.mem_cons_of_mem _ hq)) acc

theorem foldlM_const_of_no_csp (step : String → Policy → Option String)
    (hstep : ∀ acc t, step acc (Policy.otherKind t) = some acc)
    (pols : List Policy) (h : ∀ p ∈ pols, p.isCSP = false) (acc : String) :
    pols.foldlM step acc = some acc := by
  induction pols generalizing acc with
  | nil => rfl
  | cons p ps ih =>
    cases p with
    | clientSettings csp =>
      have := h _ (List.mem_cons_self _ _)
      simp [Policy.isCSP] at this
    | otherKind t =>
      rw [List.foldlM_cons, hstep]
      simpa using ih (fun q hq => h q (List.mem_cons_of_mem _ hq)) acc

theorem foldlM_mrs_const (mrs : List PoliciesV2.MatchRule)
    (h : ∀ mr ∈ mrs, ∀ p ∈ mr.Policies, p.isCSP = false) (acc : String) :
    mrs.foldlM
      (fun maxBodySize mr =>
        mr.Policies.foldlM
          (fun maxBodySize pol =>
            match pol with
            | .clientSettings csp =>
              match csp.Spec.Body with
              | some body => CSLegacy.getMaxSize maxBodySize body.MaxSize
              | none => some maxBodySize
            | .otherKind _ => some maxBodySize)
          maxBodySize)
      acc = some acc := by
  induction mrs generalizing acc with
  | nil => rfl
  | cons mr mrs ih =>
    rw [List.foldlM_cons,
      foldlM_const_of_no_csp _ (fun acc t => rfl) mr.Policies (h _ (List.mem_cons_self _ _)) acc]
    simpa using ih (fun m hm => h m (List.mem_cons_of_mem _ hm)) acc

theorem computeMaxBodySize_no_csp (rule : PoliciesV2.PathRule)
    (h : ∀ mr ∈ rule.MatchRules, ∀ p ∈ mr.Policies, p.isCSP = false) :
    ClientSettingsV2.computeMaxBodySize rule = some "" := by
  unfold ClientSettingsV2.computeMaxBodySize
  exact foldlM_mrs_const rule.MatchRules h ""

/-- C8 counterexample: a path rule with no client-settings policy makes
`GenerateForPathRule` return the nil slice (`return nil` in the source), not
the claimed unambiguously empty non-nil file list. -/
theorem claim_C8_counterexample :
    ClientSettingsV2.GenerateForPathRule
        { Path := "/", PathType := "Prefix", MatchRules := [{ Policies := [Policy.otherKind 0] }] }
      = some none
    ∧ (some (none : PoliciesV2.GenerateForLocationResult)
        ≠ some (some ([] : List PoliciesV2.LocationFile))) := by
  exact ⟨by decide, by decide⟩

/-- C8 amended: a v2 scope with zero attached client-settings policies
yields zero files and no error or panic from the client-settings generator:
the server and match-rule entry points return the empty non-nil slice, while
the path-rule entry point returns the nil slice (also zero files, but nil
rather than empty). -/
theorem claim_C8_zero_policy_scope
    (server : PoliciesV2.VirtualServer) (mrule : PoliciesV2.MatchRule)
    (prule : PoliciesV2.PathRule)
    (hs : ∀ p ∈ server.Policies, p.isCSP = false)
    (hm : ∀ p ∈ mrule.Policies, p.isCSP = false)
    (hpr : ∀ mr ∈ prule.MatchRules, ∀ p ∈ mr.Policies, p.isCSP = false) :
    ClientSettingsV2.GenerateForServer server = some []
      ∧ ClientSettingsV2.GenerateForMatchRule mrule = some []
      ∧ ClientSettingsV2.GenerateForPathRule prule = some none := by
  refine ⟨?_, ?_, ?_⟩
  · unfold ClientSettingsV2.GenerateForServer
    rw [foldl_const_of_no_csp _ (fun acc t => rfl) server.Policies hs []]
  · unfold ClientSettingsV2.GenerateForMatchRule
    rw [foldl_const_of_no_csp _ (fun acc t => rfl) mrule.Policies hm []]
  · unfold ClientSettingsV2.GenerateForPathRule
    rw [computeMaxBodySize_no_csp prule hpr]
    simp

/-- Witness for C8: the amended statement applied to a concrete server,
match rule and path rule carrying only a non-client-settings policy. -/
theorem claim_C8_witness :
    ClientSettingsV2.GenerateForServer { Policies := [Policy.otherKind 1] } = some []
      ∧ ClientSettingsV2.GenerateForMatchRule { Policies := [Policy.otherKind 1] } = some []
      ∧ ClientSettingsV2.GenerateForPathRule
          { Path := "/", PathType := "Prefix", MatchRules := [{ Policies := [Policy.otherKind 1] }] }
        = some none :=
  claim_C8_zero_policy_scope
    { Policies := [Policy.otherKind 1] }
    { Policies := [Policy.otherKind 1] }
    { Path := "/", PathType := "Prefix", MatchRules := [{ Policies := [Policy.otherKind 1] }] }
    (by decide) (by decide) (by decide)

/-- C7: for both cited path-rule entry points — the v2
`GenerateForPathRule` and the `unnamed/part_001` `GenerateForLocation` on a
non-external location — a merged body-size maximum that is empty yields
zero (redirect) files, and a non-empty merged maximum yields exactly one
redirect file. -/
theorem claim_C7_redirect_conditionality
    (rule : PoliciesV2.PathRule) (v : String)
    (hv : ClientSettingsV2.computeMaxBodySize rule = some v)
    (pols : List Policy) (location : Http.Location) (w : String)
    (hloc : location.Type ≠ Http.LocationType.external)
    (hw : ClientSettingsP1.computeMaxBodySize pols = some w) :
    ((v = "" → ClientSettingsV2.GenerateForPathRule rule = some none)
      ∧ (v ≠ "" → ∃ f : PoliciesV2.LocationFile,
          ClientSettingsV2.GenerateForPathRule rule = some (some [f])
            ∧ f.Type = PoliciesV2.LocationType.ExternalRedirect))
    ∧ ((w = "" → ClientSettingsP1.GenerateForLocation pols location
          = some { KeyVals := none, Files := [] })
      ∧ (w ≠ "" → ∃ f : PoliciesV1.File,
          ClientSettingsP1.GenerateForLocation pols location
              = some { KeyVals := none, Files := [f] }
            ∧ f.Name = "ClientSettingsPolicy_" ++ location.HTTPMatchKey ++ "_redirect.conf")) := by
  constructor
  · constructor
    · intro hv0
      unfold ClientSettingsV2.GenerateForPathRule
      rw [hv, hv0]
      simp
    · intro hvne
      unfold ClientSettingsV2.GenerateForPathRule
      rw [hv]
      simp only [if_neg hvne]
      exact ⟨_, rfl, rfl⟩
  · constructor
    · intro hw0
      unfold ClientSettingsP1.GenerateForLocation
      rw [if_neg hloc, hw, hw0]
      simp
    · intro hwne
      unfold ClientSettingsP1.GenerateForLocation
      rw [if_neg hloc, hw]
      simp only [if_neg hwne]
      exact ⟨_, rfl, rfl⟩

/-- Witness for C7: a concrete path rule whose single policy sets a `"1k"`
body-size maximum (one redirect file results), and a concrete empty policy
list on an internal location (zero files result). -/
theorem claim_C7_witness :
    ((("1k" : String) = "" → ClientSettingsV2.GenerateForPathRule
          { Path := "/coffee", PathType := "Prefix",
            MatchRules := [{ Policies := [Policy.clientSettings
              { Kind := "ClientSettingsPolicy", Namespace := "default", Name := "csp",
                Spec := { Body := some { MaxSize := some "1k", Timeout := none },
                          KeepAlive := none } }] }] }
        = some none)
      ∧ (("1k" : String) ≠ "" → ∃ f : PoliciesV2.LocationFile,
          ClientSettingsV2.GenerateForPathRule
              { Path := "/coffee", PathType := "Prefix",
                MatchRules := [{ Policies := [Policy.clientSettings
                  { Kind := "ClientSettingsPolicy", Namespace := "default", Name := "csp",
                    Spec := { Body := some { MaxSize := some "1k", Timeout := none },
                              KeepAlive := none } }] }] }
            = some (some [f])
            ∧ f.Type = PoliciesV2.LocationType.ExternalRedirect))
    ∧ ((("" : String) = "" → ClientSettingsP1.GenerateForLocation []
          { «Type» := Http.LocationType.internal, HTTPMatchKey := "1_route0" }
        = some { KeyVals := none, Files := [] })
      ∧ (("" : String) ≠ "" → ∃ f : PoliciesV1.File,
          ClientSettingsP1.GenerateForLocation []
              { «Type» := Http.LocationType.internal, HTTPMatchKey := "1_route0" }
            = some { KeyVals := none, Files := [f] }
            ∧ f.Name = "ClientSettingsPolicy_" ++ "1_route0" ++ "_redirect.conf")) :=
  claim_C7_redirect_conditionality
    { Path := "/coffee", PathType := "Prefix",
      MatchRules := [{ Policies := [Policy.clientSettings
        { Kind := "ClientSettingsPolicy", Namespace := "default", Name := "csp",
          Spec := { Body := some { MaxSize := some "1k", Timeout := none },
                    KeepAlive := none } }] }] }
    "1k" (by decide) []
    { «Type» := Http.LocationType.internal, HTTPMatchKey := "1_route0" }
    "" (by decide) (by decide)

theorem toList_goAppend {α : Type} (dst : PoliciesV2.GoSlice α) (xs : List α) :
    PoliciesV2.GoSlice.toList (PoliciesV2.goAppend dst xs)
      = PoliciesV2.GoSlice.toList dst ++ xs := by
  cases xs with
  | nil => simp [PoliciesV2.goAppend]
  | cons x xs => cases dst <;> simp [PoliciesV2.goAppend, PoliciesV2.GoSlice.toList]

theorem toList_foldl_goAppend {α β : Type} (F : β → List α) (l : List β)
    (init : PoliciesV2.GoSlice α) :
    PoliciesV2.GoSlice.toList (l.foldl (fun results g => PoliciesV2.goAppend results (F g)) init)
      = PoliciesV2.GoSlice.toList init ++ (l.map F).flatten := by
  induction l generalizing init with
  | nil => simp
  | cons g l ih => simp [List.foldl_cons, ih, toList_goAppend]

theorem v1_compositeInternal_files (gens : List PoliciesV1.Generator) (pols : List Policy)
    (loc : Http.Location)
    (h : ∀ g ∈ gens, (g.GenerateForInternalLocation pols loc).KeyVals = none
        ∨ (g.GenerateForInternalLocation pols loc).KeyVals = some []) :
    PoliciesV1.CompositeGenerator.GenerateForInternalLocation ⟨gens⟩ pols loc
      = some { KeyVals := none,
               Files := (gens.map (fun g => (g.GenerateForInternalLocation pols loc).Files)).flatten } := by
  unfold PoliciesV1.CompositeGenerator.GenerateForInternalLocation
  suffices hgen : ∀ accFiles : List PoliciesV1.File,
      gens.foldlM
          (fun compositeResult generator =>
            PoliciesV1.compositeStep compositeResult
              (generator.GenerateForInternalLocation pols loc))
          { KeyVals := none, Files := accFiles }
        = some { KeyVals := none,
                 Files := accFiles
                   ++ (gens.map (fun g => (g.GenerateForInternalLocation pols loc).Files)).flatten } by
    simpa using hgen []
  induction gens with
  | nil => intro accFiles; simp
  | cons g gens ih =>
    intro accFiles
    have hg := h g (List.mem_cons_self _ _)
    have hstep : PoliciesV1.compositeStep { KeyVals := none, Files := accFiles }
        (g.GenerateForInternalLocation pols loc)
        = some { KeyVals := none,
                 Files := accFiles ++ (g.GenerateForInternalLocation pols loc).Files } := by
      rcases hg with hg | hg <;>
        simp [PoliciesV1.compositeStep, PoliciesV1.mapsCopy, hg]
    rw [List.foldlM_cons, hstep]
    simpa [List.append_assoc] using
      ih (fun q hq => h q (List.mem_cons_of_mem _ hq)) (accFiles ++ (g.GenerateForInternalLocation pols loc).Files)

/-- C6 counterexample: in the v1 composite, a single member generator that
returns a file together with a non-empty `KeyVals` map makes the composite
panic in the `maps.Copy` merge, so the composite's file output is not the
concatenation of the members' file outputs (the member's file is lost). -/
theorem claim_C6_counterexample :
    PoliciesV1.CompositeGenerator.GenerateForInternalLocation
        (PoliciesV1.NewCompositeGenerator
          [{ GenerateForLocation := fun _ _ => { KeyVals := none, Files := [] },
             GenerateForInternalLocation := fun _ _ =>
               { KeyVals := some [("proxy_buffering", "off")],
                 Files := [{ Name := "member.conf", Content := "x" }] },
             GenerateForServer := fun _ _ => { KeyVals := none, Files := [] } }])
        [] { «Type» := Http.LocationType.internal, HTTPMatchKey := "m" }
      = none := by
  decide

/-- C6 amended: the v2 composite's file output equals, unconditionally, the
concatenation in registration order of its members' outputs on the identical
input, for all three entry points; the v1 composite satisfies the same
concatenation property for its file output whenever no member returns a
non-empty `KeyVals` map (otherwise its `maps.Copy` merge panics, see C5). -/
theorem claim_C6_composite_concat
    (gens2 : List PoliciesV2.Generator) (server : PoliciesV2.VirtualServer)
    (prule : PoliciesV2.PathRule) (mrule : PoliciesV2.MatchRule)
    (gens1 : List PoliciesV1.Generator) (pols : List Policy) (loc : Http.Location)
    (h1 : ∀ g ∈ gens1, (g.GenerateForInternalLocation pols loc).KeyVals = none
        ∨ (g.GenerateForInternalLocation pols loc).KeyVals = some []) :
    PoliciesV2.GoSlice.toList (PoliciesV2.CompositeGenerator.GenerateForServer ⟨gens2⟩ server)
        = (gens2.map (fun g => PoliciesV2.GoSlice.toList (g.GenerateForServer server))).flatten
    ∧ PoliciesV2.GoSlice.toList (PoliciesV2.CompositeGenerator.GenerateForPathRule ⟨gens2⟩ prule)
        = (gens2.map (fun g => PoliciesV2.GoSlice.toList (g.GenerateForPathRule prule))).flatten
    ∧ PoliciesV2.GoSlice.toList (PoliciesV2.CompositeGenerator.GenerateForMatchRule ⟨gens2⟩ mrule)
        = (gens2.map (fun g => PoliciesV2.GoSlice.toList (g.GenerateForMatchRule mrule))).flatten
    ∧ PoliciesV1.CompositeGenerator.GenerateForInternalLocation ⟨gens1⟩ pols loc
        = some { KeyVals := none,
                 Files := (gens1.map (fun g => (g.GenerateForInternalLocation pols loc).Files)).flatten } := by
  refine ⟨?_, ?_, ?_, v1_compositeInternal_files gens1 pols loc h1⟩
  · unfold PoliciesV2.CompositeGenerator.GenerateForServer
    simpa using toList_foldl_goAppend
      (fun g : PoliciesV2.Generator => PoliciesV2.GoSlice.toList (g.GenerateForServer server))
      gens2 none
  · unfold PoliciesV2.CompositeGenerator.GenerateForPathRule
    simpa using toList_foldl_goAppend
      (fun g : PoliciesV2.Generator => PoliciesV2.GoSlice.toList (g.GenerateForPathRule prule))
      gens2 none
  · unfold PoliciesV2.CompositeGenerator.GenerateForMatchRule
    simpa using toList_foldl_goAppend
      (fun g : PoliciesV2.Generator => PoliciesV2.GoSlice.toList (g.GenerateForMatchRule mrule))
      gens2 none

/-- Witness for C6: the amended statement applied to one concrete v2 member
generator and one concrete v1 member generator whose `KeyVals` map is
nil. -/
theorem claim_C6_witness :
    PoliciesV2.GoSlice.toList
        (PoliciesV2.CompositeGenerator.GenerateForServer
          ⟨[⟨fun _ => some [⟨"a.conf", "x"⟩], fun _ => none, fun _ => some []⟩]⟩
          { Policies := [] })
      = ([(⟨fun _ => some [⟨"a.conf", "x"⟩], fun _ => none, fun _ => some []⟩ : PoliciesV2.Generator)].map
          (fun g => PoliciesV2.GoSlice.toList (g.GenerateForServer { Policies := [] }))).flatten
    ∧ PoliciesV2.GoSlice.toList
        (PoliciesV2.CompositeGenerator.GenerateForPathRule
          ⟨[⟨fun _ => some [⟨"a.conf", "x"⟩], fun _ => none, fun _ => some []⟩]⟩
          ⟨"/", "Prefix", []⟩)
      = ([(⟨fun _ => some [⟨"a.conf", "x"⟩], fun _ => none, fun _ => some []⟩ : PoliciesV2.Generator)].map
          (fun g => PoliciesV2.GoSlice.toList (g.GenerateForPathRule ⟨"/", "Prefix", []⟩))).flatten
    ∧ PoliciesV2.GoSlice.toList
        (PoliciesV2.CompositeGenerator.GenerateForMatchRule
          ⟨[⟨fun _ => some [⟨"a.conf", "x"⟩], fun _ => none, fun _ => some []⟩]⟩
          { Policies := [] })
      = ([(⟨fun _ => some [⟨"a.conf", "x"⟩], fun _ => none, fun _ => some []⟩ : PoliciesV2.Generator)].map
          (fun g => PoliciesV2.GoSlice.toList (g.GenerateForMatchRule { Policies := [] }))).flatten
    ∧ PoliciesV1.CompositeGenerator.GenerateForInternalLocation
        ⟨[⟨fun _ _ => ⟨none, [⟨"b.conf", "y"⟩]⟩,
           fun _ _ => ⟨none, [⟨"c.conf", "z"⟩]⟩,
           fun _ _ => ⟨none, []⟩⟩]⟩ [] ⟨Http.LocationType.internal, "k"⟩
      = some { KeyVals := none,
               Files := ([(⟨fun _ _ => ⟨none, [⟨"b.conf", "y"⟩]⟩,
                            fun _ _ => ⟨none, [⟨"c.conf", "z"⟩]⟩,
                            fun _ _ => ⟨none, []⟩⟩ : PoliciesV1.Generator)].map
                 (fun g => (g.GenerateForInternalLocation [] ⟨Http.LocationType.internal, "k"⟩).Files)).flatten } :=
  claim_C6_composite_concat
    [⟨fun _ => some [⟨"a.conf", "x"⟩], fun _ => none, fun _ => some []⟩]
    { Policies := [] } ⟨"/", "Prefix", []⟩ { Policies := [] }
    [⟨fun _ _ => ⟨none, [⟨"b.conf", "y"⟩]⟩,
      fun _ _ => ⟨none, [⟨"c.conf", "z"⟩]⟩,
      fun _ _ => ⟨none, []⟩⟩] [] ⟨Http.LocationType.internal, "k"⟩
    (by decide)

/-!
Supporting material for the file-naming claim.
-/

/-- Helper: whether `t` occurs as a trailing segment of `s` (byte-for-byte
on the character lists). -/
def strEndsWithTok (s t : String) : Bool :=
  t.data.isSuffixOf s.data

/-- Helper: whether `t` occurs as a leading segment of `s`. -/
def strStartsWithTok (s t : String) : Bool :=
  t.data.isPrefixOf s.data

theorem serverFold_eq (pols : List Policy) (acc : List PoliciesV2.ServerFile) :
    pols.foldl
        (fun results pol =>
          match pol with
          | .clientSettings csp =>
            results ++ [{ Name := csp.Kind ++ "_" ++ csp.Namespace ++ "_" ++ csp.Name ++ ".conf",
                          Content := renderClientSettings csp.Spec : PoliciesV2.ServerFile }]
          | .otherKind _ => results)
        acc
      = acc ++ pols.flatMap
          (fun pol =>
            match pol with
            | .clientSettings csp =>
              [{ Name := csp.Kind ++ "_" ++ csp.Namespace ++ "_" ++ csp.Name ++ ".conf",
                 Content := renderClientSettings csp.Spec : PoliciesV2.ServerFile }]
            | .otherKind _ => []) := by
  induction pols generalizing acc with
  | nil => simp
  | cons p ps ih => cases p <;> simp [List.foldl_cons, List.flatMap_cons, ih]

theorem matchRuleFold_eq (pols : List Policy) (acc : List PoliciesV2.LocationFile) :
    pols.foldl
        (fun results pol =>
          match pol with
          | .clientSettings csp =>
            let fileContents := renderClientSettings csp.Spec
            results ++
              [{ Name := csp.Kind ++ "_" ++ csp.Namespace ++ "_" ++ csp.Name ++ "_int.conf",
                 Content := fileContents, «Type» := PoliciesV2.LocationType.Internal },
               { Name := csp.Kind ++ "_" ++ csp.Namespace ++ "_" ++ csp.Name ++ "_ext.conf",
                 Content := fileContents, «Type» := PoliciesV2.LocationType.External }]
          | .otherKind _ => results)
        acc
      = acc ++ pols.flatMap
          (fun pol =>
            match pol with
            | .clientSettings csp =>
              [{ Name := csp.Kind ++ "_" ++ csp.Namespace ++ "_" ++ csp.Name ++ "_int.conf",
                 Content := renderClientSettings csp.Spec,
                 «Type» := PoliciesV2.LocationType.Internal },
               { Name := csp.Kind ++ "_" ++ csp.Namespace ++ "_" ++ csp.Name ++ "_ext.conf",
                 Content := renderClientSettings csp.Spec,
                 «Type» := PoliciesV2.LocationType.External }]
            | .otherKind _ => []) := by
  induction pols generalizing acc with
  | nil => simp
  | cons p ps ih => cases p <;> simp [List.foldl_cons, List.flatMap_cons, ih]

theorem append_underscore_inj {a c : List Char} {b d : List Char}
    (ha : '_' ∉ a) (hc : '_' ∉ c) (h : a ++ '_' :: b = c ++ '_' :: d) : a = c ∧ b = d := by
  induction a generalizing c with
  | nil =>
    cases c with
    | nil => simpa using h
    | cons y ys =>
      simp only [List.nil_append, List.cons_append, List.cons.injEq] at h
      exact absurd (h.1 ▸ List.mem_cons_self y ys) hc
  | cons x xs ih =>
    cases c with
    | nil =>
      simp only [List.cons_append, List.nil_append, List.cons.injEq] at h
      exact absurd (h.1 ▸ List.mem_cons_self x xs) ha
    | cons y ys =>
      simp only [List.cons_append, List.cons.injEq] at h
      have hx : '_' ∉ xs := fun hm => ha (List.mem_cons_of_mem _ hm)
      have hy : '_' ∉ ys := fun hm => hc (List.mem_cons_of_mem _ hm)
      obtain ⟨h1, h2⟩ := h
      obtain ⟨e1, e2⟩ := ih hx hy h2
      exact ⟨by rw [h1, e1], e2⟩

theorem intName_inj {ns1 n1 ns2 n2 : String}
    (h1 : '_' ∉ ns1.data) (h2 : '_' ∉ n1.data) (h3 : '_' ∉ ns2.data) (h4 : '_' ∉ n2.data)
    (heq : "ClientSettingsPolicy_" ++ ns1 ++ "_" ++ n1 ++ "_int.conf"
         = "ClientSettingsPolicy_" ++ ns2 ++ "_" ++ n2 ++ "_int.conf") :
    ns1 = ns2 ∧ n1 = n2 := by
  have hdata := congrArg String.data heq
  simp only [String.data_append] at hdata
  simp [List.append_assoc, List.cons_append, List.nil_append] at hdata
  obtain ⟨e1, e2⟩ := append_underscore_inj h1 h3 hdata
  obtain ⟨e3, _⟩ := append_underscore_inj h2 h4 e2
  exact ⟨String.toList_inj.mp e1, String.toList_inj.mp e3⟩

/-- C9 counterexample: the v2 server entry point emits
`ClientSettingsPolicy_default_my-policy.conf`, which carries none of the
four claimed scope suffixes, and the v2 redirect file name
`ClientSettingsPolicy_Prefix_coffee_redirect.conf` is built from the path
type and path, not from the policy's `<Namespace>_<Name>`. -/
theorem claim_C9_counterexample :
    ClientSettingsV2.GenerateForServer
        { Policies := [Policy.clientSettings
          { Kind := "ClientSettingsPolicy", Namespace := "default", Name := "my-policy",
            Spec := { Body := none, KeepAlive := none } }] }
      = some [{ Name := "ClientSettingsPolicy_default_my-policy.conf", Content := "\n" }]
    ∧ strEndsWithTok "ClientSettingsPolicy_default_my-policy.conf" "_server.conf" = false
    ∧ strEndsWithTok "ClientSettingsPolicy_default_my-policy.conf" "_int.conf" = false
    ∧ strEndsWithTok "ClientSettingsPolicy_default_my-policy.conf" "_ext.conf" = false
    ∧ strEndsWithTok "ClientSettingsPolicy_default_my-policy.conf" "_redirect.conf" = false
    ∧ ClientSettingsV2.GenerateForPathRule
        { Path := "/coffee", PathType := "Prefix",
          MatchRules := [{ Policies := [Policy.clientSettings
            { Kind := "ClientSettingsPolicy", Namespace := "default", Name := "my-policy",
              Spec := { Body := some { MaxSize := some "1k", Timeout := none },
                        KeepAlive := none } }] }] }
      = some (some [{ Name := "ClientSettingsPolicy_Prefix_coffee_redirect.conf",
                      «Type» := PoliciesV2.LocationType.ExternalRedirect,
                      Content := "\nclient_max_body_size 1k;\n" }])
    ∧ strStartsWithTok "ClientSettingsPolicy_Prefix_coffee_redirect.conf"
        "ClientSettingsPolicy_default" = false := by
  refine ⟨by decide, by decide, by decide, by decide, by decide, by decide, by decide⟩

/-- C9 amended: v2 int/ext file names follow
`<Kind>_<Namespace>_<Name>_{int,ext}.conf`; v2 server file names follow
`<Kind>_<Namespace>_<Name>.conf` with no scope suffix; the v2 redirect file
name is `ClientSettingsPolicy_<PathType>_<path-with-slashes-removed>_redirect.conf`,
carrying no namespace/name.  Names are pure functions of these inputs
(stable across repeated generation), and `_int.conf` names are collision-free
across policies with distinct underscore-free namespace/name pairs. -/
theorem claim_C9_file_naming
    (server : PoliciesV2.VirtualServer) (mrule : PoliciesV2.MatchRule)
    (rule : PoliciesV2.PathRule) (v : String)
    (hv : ClientSettingsV2.computeMaxBodySize rule = some v) (hne : v ≠ "")
    (ns1 n1 ns2 n2 : String)
    (h1 : '_' ∉ ns1.data) (h2 : '_' ∉ n1.data) (h3 : '_' ∉ ns2.data) (h4 : '_' ∉ n2.data)
    (hdiff : (ns1, n1) ≠ (ns2, n2)) :
    (∀ sf ∈ PoliciesV2.GoSlice.toList (ClientSettingsV2.GenerateForServer server),
      ∃ csp, Policy.clientSettings csp ∈ server.Policies
        ∧ sf.Name = csp.Kind ++ "_" ++ csp.Namespace ++ "_" ++ csp.Name ++ ".conf")
    ∧ (∀ f ∈ PoliciesV2.GoSlice.toList (ClientSettingsV2.GenerateForMatchRule mrule),
      ∃ csp, Policy.clientSettings csp ∈ mrule.Policies
        ∧ ((f.Name = csp.Kind ++ "_" ++ csp.Namespace ++ "_" ++ csp.Name ++ "_int.conf"
              ∧ f.Type = PoliciesV2.LocationType.Internal)
          ∨ (f.Name = csp.Kind ++ "_" ++ csp.Namespace ++ "_" ++ csp.Name ++ "_ext.conf"
              ∧ f.Type = PoliciesV2.LocationType.External)))
    ∧ (∃ f, ClientSettingsV2.GenerateForPathRule rule = some (some [f])
        ∧ f.Name = "ClientSettingsPolicy_" ++ rule.PathType ++ "_"
            ++ ClientSettingsV2.removeSlashFromPath rule.Path ++ "_redirect.conf")
    ∧ ("ClientSettingsPolicy_" ++ ns1 ++ "_" ++ n1 ++ "_int.conf"
        ≠ "ClientSettingsPolicy_" ++ ns2 ++ "_" ++ n2 ++ "_int.conf") := by
  refine ⟨?_, ?_, ?_, ?_⟩
  · intro sf hsf
    unfold ClientSettingsV2.GenerateForServer at hsf
    simp only [PoliciesV2.GoSlice.toList] at hsf
    rw [serverFold_eq server.Policies []] at hsf
    simp only [List.nil_append, List.mem_flatMap] at hsf
    obtain ⟨pol, hpol, hf⟩ := hsf
    cases pol with
    | clientSettings csp =>
      simp only [List.mem_singleton] at hf
      exact ⟨csp, hpol, by rw [hf]⟩
    | otherKind t => simp at hf
  · intro f hf
    unfold ClientSettingsV2.GenerateForMatchRule at hf
    simp only [PoliciesV2.GoSlice.toList] at hf
    rw [matchRuleFold_eq mrule.Policies []] at hf
    simp only [List.nil_append, List.mem_flatMap] at hf
    obtain ⟨pol, hpol, hmem⟩ := hf
    cases pol with
    | clientSettings csp =>
      simp only [List.mem_cons, List.mem_singleton, List.not_mem_nil, or_false] at hmem
      rcases hmem with hmem | hmem
      · exact ⟨csp, hpol, Or.inl (by rw [hmem]; exact ⟨rfl, rfl⟩)⟩
      · exact ⟨csp, hpol, Or.inr (by rw [hmem]; exact ⟨rfl, rfl⟩)⟩
    | otherKind t => simp at hmem
  · unfold ClientSettingsV2.GenerateForPathRule
    rw [hv]
    simp only [if_neg hne]
    exact ⟨_, rfl, rfl⟩
  · intro heq
    obtain ⟨e1, e2⟩ := intName_inj h1 h2 h3 h4 heq
    exact hdiff (by rw [e1, e2])

/-- Witness for C9: the amended statement applied to concrete policies
`default/alpha`, `default/beta`, and the `/coffee` path rule. -/
theorem claim_C9_witness :
    (∀ sf ∈ PoliciesV2.GoSlice.toList (ClientSettingsV2.GenerateForServer
        { Policies := [Policy.clientSettings
          { Kind := "ClientSettingsPolicy", Namespace := "default", Name := "alpha",
            Spec := { Body := none, KeepAlive := none } }] }),
      ∃ csp, Policy.clientSettings csp ∈ [Policy.clientSettings
          { Kind := "ClientSettingsPolicy", Namespace := "default", Name := "alpha",
            Spec := { Body := none, KeepAlive := none } }]
        ∧ sf.Name = csp.Kind ++ "_" ++ csp.Namespace ++ "_" ++ csp.Name ++ ".conf")
    ∧ (∀ f ∈ PoliciesV2.GoSlice.toList (ClientSettingsV2.GenerateForMatchRule
        { Policies := [Policy.clientSettings
          { Kind := "ClientSettingsPolicy", Namespace := "default", Name := "alpha",
            Spec := { Body := none, KeepAlive := none } }] }),
      ∃ csp, Policy.clientSettings csp ∈ [Policy.clientSettings
          { Kind := "ClientSettingsPolicy", Namespace := "default", Name := "alpha",
            Spec := { Body := none, KeepAlive := none } }]
        ∧ ((f.Name = csp.Kind ++ "_" ++ csp.Namespace ++ "_" ++ csp.Name ++ "_int.conf"
              ∧ f.Type = PoliciesV2.LocationType.Internal)
          ∨ (f.Name = csp.Kind ++ "_" ++ csp.Namespace ++ "_" ++ csp.Name ++ "_ext.conf"
              ∧ f.Type = PoliciesV2.LocationType.External)))
    ∧ (∃ f, ClientSettingsV2.GenerateForPathRule
          { Path := "/coffee", PathType := "Prefix",
            MatchRules := [{ Policies := [Policy.clientSettings
              { Kind := "ClientSettingsPolicy", Namespace := "default", Name := "alpha",
                Spec := { Body := some { MaxSize := some "1k", Timeout := none },
                          KeepAlive := none } }] }] }
        = some (some [f])
        ∧ f.Name = "ClientSettingsPolicy_" ++ "Prefix" ++ "_"
            ++ ClientSettingsV2.removeSlashFromPath "/coffee" ++ "_redirect.conf")
    ∧ ("ClientSettingsPolicy_" ++ "default" ++ "_" ++ "alpha" ++ "_int.conf"
        ≠ "ClientSettingsPolicy_" ++ "default" ++ "_" ++ "beta" ++ "_int.conf") :=
  claim_C9_file_naming
    { Policies := [Policy.clientSettings
      { Kind := "ClientSettingsPolicy", Namespace := "default", Name := "alpha",
        Spec := { Body := none, KeepAlive := none } }] }
    { Policies := [Policy.clientSettings
      { Kind := "ClientSettingsPolicy", Namespace := "default", Name := "alpha",
        Spec := { Body := none, KeepAlive := none } }] }
    { Path := "/coffee", PathType := "Prefix",
      MatchRules := [{ Policies := [Policy.clientSettings
        { Kind := "ClientSettingsPolicy", Namespace := "default", Name := "alpha",
          Spec := { Body := some { MaxSize := some "1k", Timeout := none },
                    KeepAlive := none } }] }] }
    "1k" (by decide) (by decide)
    "default" "alpha" "default" "beta"
    (by decide) (by decide) (by decide) (by decide) (by decide)

namespace RouteState

theorem hp_xor_of_key_ne {a b : Route}
    (hkey : getResourceKey a.Source.ObjectMeta ≠ getResourceKey b.Source.ObjectMeta) :
    higherPriority a b = ! higherPriority b a := by
  rcases higherPriority_tricho a b with h | h | ⟨_, _, _, hK⟩
  · rw [h]
    rcases hba : higherPriority b a with _ | _
    · rfl
    · exact (higherPriority_asymm h hba).elim
  · rw [h]
    rcases hab : higherPriority a b with _ | _
    · rfl
    · exact (higherPriority_asymm hab h).elim
  · exact absurd hK hkey

end RouteState

/-- C3: over any finite route list with pairwise-distinct `namespace/name`
keys the comparator is a strict total order — any two routes at distinct
positions compare with exactly one of `higherPriority(a,b)`,
`higherPriority(b,a)` true, and the comparator is transitive — and
`sortRoutes` is stable: any subsequence the comparator cannot distinguish
(no criterion separates any of its pairs) keeps its original relative
order in the sorted output. -/
theorem claim_C3_total_order_and_stable (routes : List RouteState.Route)
    (hdist : routes.Pairwise (fun a b =>
      RouteState.getResourceKey a.Source.ObjectMeta
        ≠ RouteState.getResourceKey b.Source.ObjectMeta)) :
    (∀ i j : Fin routes.length, i ≠ j →
        RouteState.higherPriority (routes.get i) (routes.get j)
          = ! RouteState.higherPriority (routes.get j) (routes.get i))
      ∧ (∀ a b c : RouteState.Route, RouteState.higherPriority a b = true →
          RouteState.higherPriority b c = true → RouteState.higherPriority a c = true)
      ∧ (∀ sub : List RouteState.Route, sub.Sublist routes →
          sub.Pairwise (fun a b => RouteState.higherPriority a b = false
            ∧ RouteState.higherPriority b a = false) →
          sub.Sublist (RouteState.sortRoutes routes)) := by
  refine ⟨?_, fun a b c hab hbc => RouteState.higherPriority_trans hab hbc, ?_⟩
  · intro i j hij
    have hkey : RouteState.getResourceKey (routes.get i).Source.ObjectMeta
        ≠ RouteState.getResourceKey (routes.get j).Source.ObjectMeta := by
      rcases Nat.lt_or_ge i.val j.val with hlt | hge
      · exact List.pairwise_iff_get.mp hdist i j hlt
      · have hlt : j.val < i.val := by
          rcases Nat.eq_or_lt_of_le hge with heq | hlt
          · exact absurd (Fin.ext heq.symm) hij
          · exact hlt
        exact (List.pairwise_iff_get.mp hdist j i hlt).symm
    exact RouteState.hp_xor_of_key_ne hkey
  · intro sub hsub hpw
    unfold RouteState.sortRoutes
    exact List.sublist_mergeSort RouteState.hp_le_trans
      (fun a b => RouteState.hp_le_total b a)
      (hpw.imp (fun h => by simp [h.2])) hsub

/-- Witness for C3: two concrete routes `a/x` and `a/y` with equal match
counts and timestamps but distinct keys. -/
theorem claim_C3_witness :
    ([⟨⟨⟨"a", "x", 0⟩⟩, ⟨[], []⟩⟩, ⟨⟨⟨"a", "y", 0⟩⟩, ⟨[], []⟩⟩] : List RouteState.Route).Pairwise
        (fun a b => RouteState.getResourceKey a.Source.ObjectMeta
          ≠ RouteState.getResourceKey b.Source.ObjectMeta)
    ∧ ((∀ i j : Fin ([⟨⟨⟨"a", "x", 0⟩⟩, ⟨[], []⟩⟩, ⟨⟨⟨"a", "y", 0⟩⟩, ⟨[], []⟩⟩] : List RouteState.Route).length,
          i ≠ j →
          RouteState.higherPriority
              (([⟨⟨⟨"a", "x", 0⟩⟩, ⟨[], []⟩⟩, ⟨⟨⟨"a", "y", 0⟩⟩, ⟨[], []⟩⟩] : List RouteState.Route).get i)
              (([⟨⟨⟨"a", "x", 0⟩⟩, ⟨[], []⟩⟩, ⟨⟨⟨"a", "y", 0⟩⟩, ⟨[], []⟩⟩] : List RouteState.Route).get j)
            = ! RouteState.higherPriority
              (([⟨⟨⟨"a", "x", 0⟩⟩, ⟨[], []⟩⟩, ⟨⟨⟨"a", "y", 0⟩⟩, ⟨[], []⟩⟩] : List RouteState.Route).get j)
              (([⟨⟨⟨"a", "x", 0⟩⟩, ⟨[], []⟩⟩, ⟨⟨⟨"a", "y", 0⟩⟩, ⟨[], []⟩⟩] : List RouteState.Route).get i))
      ∧ (∀ a b c : RouteState.Route, RouteState.higherPriority a b = true →
          RouteState.higherPriority b c = true → RouteState.higherPriority a c = true)
      ∧ (∀ sub : List RouteState.Route,
          sub.Sublist ([⟨⟨⟨"a", "x", 0⟩⟩, ⟨[], []⟩⟩, ⟨⟨⟨"a", "y", 0⟩⟩, ⟨[], []⟩⟩] : List RouteState.Route) →
          sub.Pairwise (fun a b => RouteState.higherPriority a b = false
            ∧ RouteState.higherPriority b a = false) →
          sub.Sublist (RouteState.sortRoutes
            ([⟨⟨⟨"a", "x", 0⟩⟩, ⟨[], []⟩⟩, ⟨⟨⟨"a", "y", 0⟩⟩, ⟨[], []⟩⟩] : List RouteState.Route)))) :=
  ⟨by decide, claim_C3_total_order_and_stable _ (by decide)⟩
